import Mathlib

/-!
Shallow embedding of the `os-detect` Rust library (`src/lib.rs`).

Strings are modelled as `List Char` (the source only manipulates ASCII
content, where Rust's byte indexing coincides with character indexing).
Rust panics (out-of-range string slicing, `split_at` past the end,
`unreachable!`) are modelled explicitly by the `PRes` result type, since
several claims are about the absence of hard failures.

External collaborators (the filesystem, `OsRelease::new_from`,
`PartitionID::get_uuid`, the mount syscalls) are modelled as an
environment of abstract functions, per the spec's "out of scope /
assumed correct" boundary; the code under `src/` is translated exactly.
-/

namespace OsDetect

/-- A Rust string / one line of a file, as a list of characters. -/
abbrev Line := List Char

/-- Result of a Rust computation that may panic: either a value or a panic. -/
inductive PRes (α : Type) where
  | ok (a : α)
  | panicked
deriving DecidableEq, Repr

/-- Whitespace predicate used by Rust's `trim` / `split_whitespace`. -/
def isWS (c : Char) : Bool := c = ' ' || c = '\t' || c = '\n' || c = '\r'

/-- Drop leading whitespace (left half of Rust's `str::trim`). -/
def trimLeft (l : Line) : Line := l.dropWhile isWS

/-- Drop trailing whitespace (right half of Rust's `str::trim`). -/
def trimRight (l : Line) : Line := (l.reverse.dropWhile isWS).reverse

/-- Rust's `str::trim`. -/
def trim (l : Line) : Line := trimRight (trimLeft l)

/-- Accumulator-based splitter: `wordsAux l acc` walks `l`, `acc` holding the
current in-progress word reversed. Mirrors Rust's `str::split_whitespace`
(maximal runs of non-whitespace, no empty items). -/
def wordsAux : Line → Line → List Line
  | [], acc => if acc = [] then [] else [acc.reverse]
  | c :: cs, acc =>
    if isWS c then
      if acc = [] then wordsAux cs [] else acc.reverse :: wordsAux cs []
    else
      wordsAux cs (c :: acc)

/-- Rust's `str::split_whitespace`, collected to a list. -/
def splitWhitespace (l : Line) : List Line := wordsAux l []

/-- Parsed release descriptor, produced by the external `os_release` crate
(`OsRelease::new_from`). Its internals are irrelevant here, so it is kept
as an opaque payload. -/
structure OsRelease where
  data : Line
deriving DecidableEq, Repr

/-- The `OS` enum of `lib.rs`: describes the OS found on a partition. -/
inductive OS where
  | Windows (label : Line)
  | Linux (info : OsRelease) (efi : Option Line) (home : Option Line)
      (recovery : Option Line)
  | MacOs (label : Line)
deriving DecidableEq, Repr

/-- Environment of external collaborators: path existence (`Path::exists`),
opening a file and reading its lines (`open` + `BufReader::lines`, `none`
when the open fails), `OsRelease::new_from` (`none` on parse error) and
`PartitionID::get_uuid(..).map(|id| id.id)`. -/
structure Env where
  pathExists : Line → Bool
  openLines : Line → Option (List Line)
  osReleaseNew : Line → Option OsRelease
  getUuid : Line → Option Line

/-- `Path::join` with a relative component. -/
def pathJoin (base rel : Line) : Line := base ++ '/' :: rel

def etcOsRelease : Line := "etc/os-release".toList

def etcFstab : Line := "etc/fstab".toList

def winMarker : Line := "Windows/System32/ntoskrnl.exe".toList

def homeTarget : Line := "/home".toList

def efiTarget : Line := "/boot/efi".toList

def recoveryTarget : Line := "/recovery".toList

def keyVersionMarker : Line := "<key>ProductUserVisibleVersion</key>".toList

def keyNameMarker : Line := "<key>ProductName</key>".toList

def macFallback : Line := "Mac OS (Unknown)".toList

/-- The slice `entry[8 .. entry.len() - 9]` (only meaningful for
`entry.length ≥ 17`, where the Rust slice does not panic). -/
def sliceVal (e : Line) : Line := (e.take (e.length - 9)).drop 8

/-- The final `if let (Some(name), Some(version))` formatting of
`parse_plist`: `format!("{} ({})", name, version)`. -/
def plistFinish (pn v : Option Line) : Option Line :=
  match pn, v with
  | some n, some ver => some (n ++ " (".toList ++ ver ++ ")".toList)
  | _, _ => none

/-- The `for` loop of `parse_plist`, carrying `flags`, `product_name` and
`version`. Each branch ends with the loop's `break` test
(`product_name.is_some() && version.is_some()`). In states 1 and 2 a trimmed
line of length in `[10, 17)` makes the Rust slice `entry[8..entry.len()-9]`
panic (start exceeds end); `flags ≥ 3` is the `unreachable!()` panic. -/
def plistLoop : List Line → Nat → Option Line → Option Line → PRes (Option Line)
  | [], _, pn, v => .ok (plistFinish pn v)
  | e :: rest, 0, pn, v =>
    let t := trim e
    let flags' := if t = keyVersionMarker then 1
      else if t = keyNameMarker then 2 else 0
    if pn.isSome && v.isSome then .ok (plistFinish pn v)
    else plistLoop rest flags' pn v
  | e :: rest, 1, pn, v =>
    let t := trim e
    if t.length < 10 then .ok none
    else if t.length < 17 then .panicked
    else
      let v' := some (sliceVal t)
      if pn.isSome && v'.isSome then .ok (plistFinish pn v')
      else plistLoop rest 0 pn v'
  | e :: rest, 2, pn, v =>
    let t := trim e
    if t.length < 10 then .ok none
    else if t.length < 17 then .panicked
    else
      let pn' := some (sliceVal t)
      if pn'.isSome && v.isSome then .ok (plistFinish pn' v)
      else plistLoop rest 0 pn' v
  | _ :: _, _ + 3, _, _ => .panicked

/-- `parse_plist` of `lib.rs`: scan the lines of a plist-like file for the
two key markers and their wrapped values. -/
def parse_plist (ls : List Line) : PRes (Option Line) := plistLoop ls 0 none none

/-- The `parse_fstab_mount` closure of `find_linux_parts`. A source starting
with `UUID` whose length is under 5 makes Rust's `split_at(5)` panic. -/
def parse_fstab_mount (env : Env) (mount : Line) : PRes (Option Line) :=
  if mount.head? = some '/' then .ok (env.getUuid mount)
  else if ("UUID".toList).isPrefixOf mount then
    if mount.length < 5 then .panicked else .ok (some (mount.drop 5))
  else .ok none

/-- The `for entry in … lines()` loop of `find_linux_parts`, carrying the
three accumulators `home`, `efi`, `recovery`. -/
def fstabLoop (env : Env) :
    List Line → Option Line → Option Line → Option Line →
    PRes (Option Line × Option Line × Option Line)
  | [], home, efi, recovery => .ok (home, efi, recovery)
  | e :: rest, home, efi, recovery =>
    let t := trim e
    if t.head? = some '#' then fstabLoop env rest home efi recovery
    else
      match splitWhitespace t with
      | src :: tgt :: _ =>
        if home = none ∧ tgt = homeTarget then
          match parse_fstab_mount env src with
          | .panicked => .panicked
          | .ok (some p) => fstabLoop env rest (some p) efi recovery
          | .ok none => fstabLoop env rest home efi recovery
        else if efi = none ∧ tgt = efiTarget then
          match parse_fstab_mount env src with
          | .panicked => .panicked
          | .ok (some p) => fstabLoop env rest home (some p) recovery
          | .ok none => fstabLoop env rest home efi recovery
        else if recovery = none ∧ tgt = recoveryTarget then
          match parse_fstab_mount env src with
          | .panicked => .panicked
          | .ok (some p) => fstabLoop env rest home efi (some p)
          | .ok none => fstabLoop env rest home efi recovery
        else fstabLoop env rest home efi recovery
      | _ => fstabLoop env rest home efi recovery

/-- `find_linux_parts` of `lib.rs`: returns `(home, efi, recovery)`. -/
def find_linux_parts (env : Env) (base : Line) :
    PRes (Option Line × Option Line × Option Line) :=
  match env.openLines (pathJoin base etcFstab) with
  | none => .ok (none, none, none)
  | some ls => fstabLoop env ls none none none

/-- `detect_linux` of `lib.rs`. -/
def detect_linux (env : Env) (base : Line) : PRes (Option OS) :=
  let path := pathJoin base etcOsRelease
  if env.pathExists path then
    match env.osReleaseNew path with
    | some info =>
      match find_linux_parts env base with
      | .panicked => .panicked
      | .ok (home, efi, recovery) => .ok (some (OS.Linux info efi home recovery))
    | none => .ok none
  else .ok none

/-- `detect_macos` of `lib.rs`. -/
def detect_macos (env : Env) (base : Line) : PRes (Option OS) :=
  match env.openLines (pathJoin base etcOsRelease) with
  | none => .ok none
  | some ls =>
    match parse_plist ls with
    | .panicked => .panicked
    | .ok r => .ok (some (OS.MacOs (r.getD macFallback)))

/-- `detect_windows` of `lib.rs`. -/
def detect_windows (env : Env) (base : Line) : Option OS :=
  if env.pathExists (pathJoin base winMarker) then
    some (OS.Windows "Windows".toList)
  else none

/-- `detect_os_from_path` of `lib.rs`:
`detect_linux(base).or_else(|| detect_windows(base)).or_else(|| detect_macos(base))`. -/
def detect_os_from_path (env : Env) (base : Line) : PRes (Option OS) :=
  match detect_linux env base with
  | .panicked => .panicked
  | .ok (some os) => .ok (some os)
  | .ok none =>
    match detect_windows env base with
    | some os => .ok (some os)
    | none => detect_macos env base

/-- Resource events of one `detect_os_from_device` call, in the order they
happen: successful acquisitions (`TempDir::new`, `Mount::new`) and the
releases run by Rust's drop glue (`UnmountDrop` with `DETACH`, `TempDir`
removal). -/
inductive MEv where
  | tempdirCreated
  | mountCreated
  | unmountDetach
  | tempdirRemoved
deriving DecidableEq, Repr

/-- Environment for `detect_os_from_device`: whether `TempDir::new` succeeds,
the path of the created directory, whether `Mount::new` succeeds, and the
filesystem environment seen once mounted. -/
structure DevEnv where
  tempdirOk : Bool
  tempdirPath : Line
  mountOk : Bool
  fsEnv : Env

/-- `detect_os_from_device` of `lib.rs`, with its resource-event trace.
The trace reflects Rust's drop order for the nested closures: the
`UnmountDrop` guard is dropped when the inner closure ends, the `TempDir`
when the outer closure ends — both also during unwinding when the probe
panics. -/
def detect_os_from_device (d : DevEnv) : PRes (Option OS) × List MEv :=
  if d.tempdirOk then
    if d.mountOk then
      match detect_os_from_path d.fsEnv d.tempdirPath with
      | .ok r => (.ok r,
          [.tempdirCreated, .mountCreated, .unmountDetach, .tempdirRemoved])
      | .panicked => (.panicked,
          [.tempdirCreated, .mountCreated, .unmountDetach, .tempdirRemoved])
    else (.ok none, [.tempdirCreated, .tempdirRemoved])
  else (.ok none, [])

/-- Modelled from the spec: the OS Probe Chain contract, in the spec's own
words — "try detectors in fixed order — Linux, then Windows, then macOS —
and return the first non-empty result". -/
def probeChainSpec (env : Env) (base : Line) : PRes (Option OS) :=
  match detect_linux env base with
  | .panicked => .panicked
  | .ok (some os) => .ok (some os)
  | .ok none =>
    match detect_windows env base with
    | some os => .ok (some os)
    | none => detect_macos env base

/-- A correctly wrapped plist value line, `<string>…</string>`, as in the
spec's "fixed-width value-tag wrapper" and the repository's own test data. -/
def wrapS (v : Line) : Line := "<string>".toList ++ v ++ "</string>".toList

/-- An fstab source field in `UUID=` form. -/
def uuidSrc (u : Line) : Line := "UUID=".toList ++ u

/-- An fstab line mounting the given `UUID=`-form source at `/home`. -/
def fstabHomeLine (u : Line) : Line := uuidSrc u ++ ' ' :: homeTarget

/-- An fstab line mounting the given `UUID=`-form source at `/boot/efi`. -/
def fstabEfiLine (u : Line) : Line := uuidSrc u ++ ' ' :: efiTarget

/-- An fstab line mounting the given `UUID=`-form source at `/recovery`. -/
def fstabRecLine (u : Line) : Line := uuidSrc u ++ ' ' :: recoveryTarget

/-- An fstab source field in the unsupported `LABEL=` form. -/
def labelSrc : Line := "LABEL=x".toList

/-- An fstab `/home` line whose source is the unsupported `LABEL=` form. -/
def labelHomeLine : Line := "LABEL=x /home ext4 defaults 0 2".toList

/-- The `MAC_PLIST` test constant of `lib.rs`, split into lines. -/
def macPlistLines : List Line :=
  ("<?xml version=\"1.0\" encoding=\"UTF-8\"?>".toList) ::
  ("<!DOCTYPE plist PUBLIC \"Apple Stuff\">".toList) ::
  ("<plist version=\"1.0\">".toList) ::
  ("<dict>".toList) ::
  ("    <key>ProductBuildVersion</key>".toList) ::
  ("    <string>10C540</string>".toList) ::
  ("    <key>ProductName</key>".toList) ::
  ("    <string>Mac OS X</string>".toList) ::
  ("    <key>ProductUserVisibleVersion</key>".toList) ::
  ("    <string>10.6.2</string>".toList) ::
  ("    <key>ProductVersion</key>".toList) ::
  ("    <string>10.6.2</string>".toList) ::
  ("</dict>".toList) ::
  ("</plist>".toList) :: []

/-- An environment in which nothing exists and nothing can be opened. -/
def envNull : Env :=
  { pathExists := fun _ => false
    openLines := fun _ => none
    osReleaseNew := fun _ => none
    getUuid := fun _ => none }

/-- Concrete root path used by the witness environments. -/
def baseW : Line := "/mnt".toList

/-- A root with only the Windows kernel marker present. -/
def envWin : Env :=
  { pathExists := fun p => p == pathJoin baseW winMarker
    openLines := fun _ => none
    osReleaseNew := fun _ => none
    getUuid := fun _ => none }

/-- A root whose `etc/os-release` opens but holds nothing the plist scanner
can use (an empty file). -/
def envMac : Env :=
  { pathExists := fun p => p == pathJoin baseW etcOsRelease
    openLines := fun p => if p == pathJoin baseW etcOsRelease then some [] else none
    osReleaseNew := fun _ => none
    getUuid := fun _ => none }

/-- A root whose `etc/os-release` opens onto a key marker followed by a
10-character value line — inside the scanner's panic band. -/
def envMacPanic : Env :=
  { pathExists := fun p => p == pathJoin baseW etcOsRelease
    openLines := fun p =>
      if p == pathJoin baseW etcOsRelease then
        some [keyNameMarker, "0123456789".toList]
      else none
    osReleaseNew := fun _ => none
    getUuid := fun _ => none }

/-- A Linux root whose `etc/fstab` has a source field of exactly `UUID`
(shorter than the 5 characters `split_at(5)` needs). -/
def envC8 : Env :=
  { pathExists := fun p => p == pathJoin baseW etcOsRelease
    openLines := fun p =>
      if p == pathJoin baseW etcFstab then
        some ["UUID /home ext4 defaults 0 2".toList]
      else none
    osReleaseNew := fun p =>
      if p == pathJoin baseW etcOsRelease then some ⟨"NAME=Pop!_OS".toList⟩
      else none
    getUuid := fun _ => none }

/-- A Linux root with a well-formed `etc/os-release` and no `etc/fstab`. -/
def envLinuxNoFstab : Env :=
  { pathExists := fun p => p == pathJoin baseW etcOsRelease
    openLines := fun _ => none
    osReleaseNew := fun p =>
      if p == pathJoin baseW etcOsRelease then some ⟨"NAME=Pop!_OS".toList⟩
      else none
    getUuid := fun _ => none }

/-- A device whose temporary directory and mount both succeed, over an
empty filesystem. -/
def devW : DevEnv :=
  { tempdirOk := true
    tempdirPath := baseW
    mountOk := true
    fsEnv := envNull }

/-- A device whose mount fails. -/
def devNoMount : DevEnv :=
  { tempdirOk := true
    tempdirPath := baseW
    mountOk := false
    fsEnv := envNull }

/-! ### Helper lemmas about trimming, word splitting and slicing -/

theorem trimLeft_cons (c : Char) (l : Line) (h : isWS c = false) :
    trimLeft (c :: l) = c :: l := by
  simp [trimLeft, List.dropWhile_cons, h]

theorem trimRight_append (l : Line) (d : Char) (h : isWS d = false) :
    trimRight (l ++ [d]) = l ++ [d] := by
  simp [trimRight, List.dropWhile_cons, h]

theorem trim_sandwich (c d : Char) (m : Line) (hc : isWS c = false)
    (hd : isWS d = false) : trim (c :: (m ++ [d])) = c :: (m ++ [d]) := by
  rw [trim, trimLeft_cons c _ hc,
    show c :: (m ++ [d]) = (c :: m) ++ [d] from rfl,
    trimRight_append _ d hd]

theorem trim_wrapS (n : Line) : trim (wrapS n) = wrapS n := by
  have h : wrapS n = '<' :: ((("string>".toList ++ n) ++ "</string".toList) ++ ['>']) := by
    rw [show wrapS n = '<' :: (("string>".toList ++ n) ++ "</string>".toList) from rfl,
      show ("</string>".toList : Line) = "</string".toList ++ ['>'] from rfl,
      ← List.append_assoc]
  rw [h]
  exact trim_sandwich '<' '>' _ (by decide) (by decide)

theorem wrapS_length (n : Line) : (wrapS n).length = n.length + 17 := by
  rw [show wrapS n = ("<string>".toList ++ n) ++ "</string>".toList from rfl,
    List.length_append, List.length_append,
    show ("<string>".toList : Line).length = 8 from rfl,
    show ("</string>".toList : Line).length = 9 from rfl]
  omega

theorem wrapS_not_lt_ten (n : Line) : ¬ (wrapS n).length < 10 := by
  rw [wrapS_length]; omega

theorem wrapS_not_lt_seventeen (n : Line) : ¬ (wrapS n).length < 17 := by
  rw [wrapS_length]; omega

theorem sliceVal_wrapS (n : Line) : sliceVal (wrapS n) = n := by
  have hA : ("<string>".toList : Line).length = 8 := rfl
  have hlen : (wrapS n).length - 9 = ("<string>".toList ++ n).length := by
    rw [wrapS_length, List.length_append, hA]; omega
  rw [sliceVal, hlen,
    show wrapS n = ("<string>".toList ++ n) ++ "</string>".toList from rfl,
    List.take_left, ← hA, List.drop_left]

theorem trim_keyName : trim keyNameMarker = keyNameMarker := by decide

theorem trim_keyVersion : trim keyVersionMarker = keyVersionMarker := by decide

theorem kN_ne_kV : keyNameMarker ≠ keyVersionMarker := by decide

theorem wordsAux_append_word (w : Line) (hw : ∀ c ∈ w, isWS c = false)
    (rest acc : Line) : wordsAux (w ++ rest) acc = wordsAux rest (w.reverse ++ acc) := by
  induction w generalizing acc with
  | nil => simp
  | cons c w ih =>
    have hc : isWS c = false := hw c (List.mem_cons_self c w)
    have hw' : ∀ x ∈ w, isWS x = false := fun x hx => hw x (List.mem_cons_of_mem c hx)
    simp only [List.cons_append, wordsAux, hc, Bool.false_eq_true, if_false,
      List.append_eq]
    rw [ih hw']
    simp [List.append_assoc]

theorem wordsAux_space (rest acc : Line) :
    wordsAux (' ' :: rest) acc =
      if acc = [] then wordsAux rest [] else acc.reverse :: wordsAux rest [] := by
  simp [wordsAux, isWS]

theorem splitWhitespace_word (w : Line) (hw : ∀ c ∈ w, isWS c = false)
    (hne : w ≠ []) : splitWhitespace w = [w] := by
  have h := wordsAux_append_word w hw [] []
  rw [List.append_nil] at h
  rw [splitWhitespace, h, wordsAux]
  simp [hne]

theorem trim_fstabHomeLine (u : Line) :
    trim (fstabHomeLine u) = fstabHomeLine u := by
  have h : fstabHomeLine u =
      'U' :: ((("UID=".toList ++ u) ++ (' ' :: "/hom".toList)) ++ ['e']) := by
    rw [show fstabHomeLine u = 'U' :: (("UID=".toList ++ u) ++ (' ' :: "/home".toList)) from rfl,
      show (' ' :: "/home".toList : Line) = (' ' :: "/hom".toList) ++ ['e'] from rfl,
      ← List.append_assoc]
  rw [h]
  exact trim_sandwich 'U' 'e' _ (by decide) (by decide)

theorem uuidSrc_noWS (u : Line) (hu : ∀ c ∈ u, isWS c = false) :
    ∀ c ∈ uuidSrc u, isWS c = false := by
  intro c hc
  rw [show uuidSrc u = "UUID=".toList ++ u from rfl] at hc
  rcases List.mem_append.mp hc with h | h
  · fin_cases h <;> decide
  · exact hu c h

theorem splitWhitespace_fstabHomeLine (u : Line) (hu : ∀ c ∈ u, isWS c = false) :
    splitWhitespace (fstabHomeLine u) = [uuidSrc u, homeTarget] := by
  rw [splitWhitespace, fstabHomeLine,
    wordsAux_append_word (uuidSrc u) (uuidSrc_noWS u hu) _ [],
    List.append_nil, wordsAux_space]
  have hne : (uuidSrc u).reverse ≠ [] := by
    simp [uuidSrc]
  rw [if_neg hne, List.reverse_reverse]
  have hh : ∀ c ∈ homeTarget, isWS c = false := by decide
  have := wordsAux_append_word homeTarget hh [] []
  rw [List.append_nil] at this
  rw [show (wordsAux homeTarget [] = splitWhitespace homeTarget) from rfl,
    splitWhitespace_word homeTarget hh (by decide)]

theorem parse_fstab_uuid (env : Env) (u : Line) :
    parse_fstab_mount env (uuidSrc u) = .ok (some u) := by
  show parse_fstab_mount env ('U' :: 'U' :: 'I' :: 'D' :: '=' :: u) = .ok (some u)
  simp only [parse_fstab_mount]
  rw [if_neg (by simp), if_pos (show ("UUID".toList).isPrefixOf
      ('U' :: 'U' :: 'I' :: 'D' :: '=' :: u) = true from rfl),
    if_neg (show ¬ ('U' :: 'U' :: 'I' :: 'D' :: '=' :: u).length < 5 by
      simp [List.length_cons])]
  rfl

theorem trim_uuidTgtLine (u m : Line) (d : Char) (hd : isWS d = false) :
    trim (uuidSrc u ++ ' ' :: (m ++ [d])) = uuidSrc u ++ ' ' :: (m ++ [d]) := by
  have h : uuidSrc u ++ ' ' :: (m ++ [d]) =
      'U' :: ((("UID=".toList ++ u) ++ (' ' :: m)) ++ [d]) := by
    rw [show uuidSrc u ++ ' ' :: (m ++ [d]) =
        'U' :: (("UID=".toList ++ u) ++ (' ' :: (m ++ [d]))) from rfl,
      show (' ' :: (m ++ [d]) : Line) = (' ' :: m) ++ [d] from rfl,
      ← List.append_assoc]
  rw [h]
  exact trim_sandwich 'U' d _ (by decide) hd

theorem splitWhitespace_uuidTgtLine (u tgt : Line)
    (hu : ∀ c ∈ u, isWS c = false) (ht : ∀ c ∈ tgt, isWS c = false)
    (hne : tgt ≠ []) :
    splitWhitespace (uuidSrc u ++ ' ' :: tgt) = [uuidSrc u, tgt] := by
  rw [splitWhitespace, wordsAux_append_word (uuidSrc u) (uuidSrc_noWS u hu) _ [],
    List.append_nil, wordsAux_space]
  have hne2 : (uuidSrc u).reverse ≠ [] := by
    simp [uuidSrc]
  rw [if_neg hne2, List.reverse_reverse]
  have h2 := wordsAux_append_word tgt ht [] []
  rw [List.append_nil] at h2
  rw [show wordsAux tgt [] = splitWhitespace tgt from rfl,
    splitWhitespace_word tgt ht hne]

theorem trim_fstabEfiLine (u : Line) :
    trim (fstabEfiLine u) = fstabEfiLine u := by
  rw [show fstabEfiLine u = uuidSrc u ++ ' ' :: ("/boot/ef".toList ++ ['i']) from rfl,
    trim_uuidTgtLine u _ 'i' (by decide)]

theorem trim_fstabRecLine (u : Line) :
    trim (fstabRecLine u) = fstabRecLine u := by
  rw [show fstabRecLine u = uuidSrc u ++ ' ' :: ("/recover".toList ++ ['y']) from rfl,
    trim_uuidTgtLine u _ 'y' (by decide)]

theorem splitWhitespace_fstabEfiLine (u : Line) (hu : ∀ c ∈ u, isWS c = false) :
    splitWhitespace (fstabEfiLine u) = [uuidSrc u, efiTarget] :=
  splitWhitespace_uuidTgtLine u efiTarget hu (by decide) (by decide)

theorem splitWhitespace_fstabRecLine (u : Line) (hu : ∀ c ∈ u, isWS c = false) :
    splitWhitespace (fstabRecLine u) = [uuidSrc u, recoveryTarget] :=
  splitWhitespace_uuidTgtLine u recoveryTarget hu (by decide) (by decide)

theorem parse_fstab_label (env : Env) :
    parse_fstab_mount env labelSrc = .ok none := by
  simp only [parse_fstab_mount]
  rw [if_neg (by decide), if_neg (by decide)]

theorem fstabLoop_keeps (env : Env) (lines : List Line) :
    ∀ (home efi rec : Option Line)
      (t : Option Line × Option Line × Option Line),
      fstabLoop env lines home efi rec = .ok t →
      (∀ h, home = some h → t.1 = some h) ∧
      (∀ e, efi = some e → t.2.1 = some e) ∧
      (∀ r, rec = some r → t.2.2 = some r) := by
  induction lines with
  | nil =>
    intro home efi rec t ht
    simp only [fstabLoop] at ht
    injection ht with h2
    subst h2
    exact ⟨fun x hx => hx, fun x hx => hx, fun x hx => hx⟩
  | cons l rest ih =>
    intro home efi rec t ht
    simp only [fstabLoop] at ht
    repeat' split at ht
    all_goals first
      | cases ht
      | (obtain ⟨k1, k2, k3⟩ := ih _ _ _ _ ht
         clear ih ht
         refine ⟨fun x hx => ?_, fun x hx => ?_, fun x hx => ?_⟩ <;>
           first
             | exact k1 x hx
             | exact k2 x hx
             | exact k3 x hx
             | simp_all)

/-! ### Claim theorems -/

/-- C4: for markup input in which both key markers each appear followed by a
correctly wrapped value line, the scanner returns `"{name} ({version})"`
with the value extracted by the fixed `[8, len-9)` slice, in either marker
order; in particular the `MAC_PLIST` document of the repository's test
yields exactly `"Mac OS X (10.6.2)"`. -/
theorem c4_plist_extraction :
    (∀ name version : Line,
      parse_plist [keyNameMarker, wrapS name, keyVersionMarker, wrapS version]
        = .ok (some (name ++ " (".toList ++ version ++ ")".toList))) ∧
    (∀ name version : Line,
      parse_plist [keyVersionMarker, wrapS version, keyNameMarker, wrapS name]
        = .ok (some (name ++ " (".toList ++ version ++ ")".toList))) ∧
    parse_plist macPlistLines = .ok (some "Mac OS X (10.6.2)".toList) := by
  refine ⟨fun name version => ?_, fun name version => ?_, by decide⟩ <;>
    simp [parse_plist, plistLoop, trim_keyName, trim_keyVersion, kN_ne_kV,
      trim_wrapS, wrapS_not_lt_ten, wrapS_not_lt_seventeen, sliceVal_wrapS,
      plistFinish]

/-- C5 (refuting evidence): the Markup Version Scanner hard-fails (Rust
panic from `entry[8..entry.len()-9]` with start past end) on a value line of
trimmed length 10–16, and the Fstab Table Parser hard-fails (Rust panic from
`split_at(5)`) on a source field of exactly `UUID`; neither degrades to an
empty result there. -/
theorem c5_parsers_can_panic :
    parse_plist [keyNameMarker, "0123456789".toList] = .panicked ∧
    fstabLoop envNull ["UUID /home ext4 defaults 0 2".toList] none none none
      = .panicked :=
  ⟨by decide, by decide⟩

/-- C6: in an awaiting state (right after a key-marker line), a next line
whose trimmed length is under 10 makes the scanner return `none` at once,
whatever follows; in particular `parse_plist` of a key marker followed by a
short line is `none` regardless of the remaining input. -/
theorem c6_short_value_aborts :
    (∀ (e : Line) (rest : List Line) (flags : Nat) (pn v : Option Line),
        flags = 1 ∨ flags = 2 → (trim e).length < 10 →
        plistLoop (e :: rest) flags pn v = .ok none) ∧
    (∀ (e : Line) (rest : List Line), (trim e).length < 10 →
        parse_plist (keyNameMarker :: e :: rest) = .ok none) := by
  constructor
  · rintro e rest flags pn v (rfl | rfl) h <;> simp [plistLoop, h]
  · intro e rest h
    simp [parse_plist, plistLoop, trim_keyName, kN_ne_kV, h]

/-- Witness for C6 at a concrete short value line. -/
theorem c6_witness :
    (trim "<s>".toList).length < 10 ∧
    plistLoop ["<s>".toList] 2 none none = .ok none :=
  ⟨by decide, c6_short_value_aborts.1 "<s>".toList [] 2 none none
    (Or.inr rfl) (by decide)⟩

/-- C10 (counterexample): a line of trimmed length 10 in awaiting-version
state is not consumed as a value — the scanner panics instead of recording
the `[8, len-9)` slice. -/
theorem c10_cex_len_ten_panics :
    plistLoop ["0123456789".toList] 1 none none = .panicked ∧
    plistLoop ["0123456789".toList] 1 none none ≠
      .ok (plistFinish none (some (sliceVal (trim "0123456789".toList)))) :=
  ⟨by decide, by decide⟩

/-- C10 (amended): in an awaiting state the scanner consumes the next
trimmed line of length at least 17 as a value via the fixed `[8, len-9)`
slice regardless of content (so a key-marker line in that position is
sliced as a value, not treated as a transition), while a trimmed line of
length 10–16 makes it panic. -/
theorem c10_amended_slice_regardless :
    (∀ (e : Line) (rest : List Line), 17 ≤ (trim e).length →
        plistLoop (e :: rest) 1 none none =
          plistLoop rest 0 none (some (sliceVal (trim e)))) ∧
    (∀ (e : Line) (rest : List Line) (v : Line), 17 ≤ (trim e).length →
        plistLoop (e :: rest) 2 none (some v) =
          .ok (some (sliceVal (trim e) ++ " (".toList ++ v ++ ")".toList))) ∧
    (∀ (e : Line) (rest : List Line) (flags : Nat) (pn v : Option Line),
        flags = 1 ∨ flags = 2 → 10 ≤ (trim e).length → (trim e).length < 17 →
        plistLoop (e :: rest) flags pn v = .panicked) := by
  refine ⟨fun e rest h => ?_, fun e rest v h => ?_, ?_⟩
  · simp only [plistLoop]
    rw [if_neg (by omega), if_neg (by omega)]
    simp
  · simp only [plistLoop]
    rw [if_neg (by omega), if_neg (by omega)]
    simp [plistFinish]
  · rintro e rest flags pn v (rfl | rfl) h1 h2 <;>
      (simp only [plistLoop]; rw [if_neg (by omega), if_pos (by omega)])

/-- C7 (counterexample): when the first `/home` line's source is the
unsupported `LABEL=` form, it is skipped with the field left empty, and the
later duplicate `/home` line — not the first — supplies the resolved home
identifier; dropping the later duplicate changes the result, so it is not
ignored. -/
theorem c7_cex_unsupported_then_uuid :
    fstabLoop envNull [labelHomeLine,
        "UUID=u2 /home ext4 defaults 0 2".toList] none none none
      = .ok (some "u2".toList, none, none) ∧
    fstabLoop envNull [labelHomeLine,
        "UUID=u2 /home ext4 defaults 0 2".toList] none none none
      ≠ fstabLoop envNull [labelHomeLine] none none none :=
  ⟨by decide, by decide⟩

/-- C7 (amended): the first fstab line whose target matches and whose source
successfully resolves determines that target's identifier — once any of the
three fields (`/home`, `/boot/efi`, `/recovery`) is resolved, later lines
never change it; for two resolvable lines on the same target the first wins
(shown for each target); but a matching line whose source fails to resolve
leaves the field empty, and a later duplicate can then fill it. -/
theorem c7_amended_first_resolved_wins :
    (∀ (env : Env) (lines : List Line) (home efi rec : Option Line)
        (t : Option Line × Option Line × Option Line),
        fstabLoop env lines home efi rec = .ok t →
        (∀ h, home = some h → t.1 = some h) ∧
        (∀ e, efi = some e → t.2.1 = some e) ∧
        (∀ r, rec = some r → t.2.2 = some r)) ∧
    (∀ (env : Env) (u1 u2 : Line),
        (∀ c ∈ u1, isWS c = false) → (∀ c ∈ u2, isWS c = false) →
        fstabLoop env [fstabHomeLine u1, fstabHomeLine u2] none none none
          = .ok (some u1, none, none) ∧
        fstabLoop env [fstabEfiLine u1, fstabEfiLine u2] none none none
          = .ok (none, some u1, none) ∧
        fstabLoop env [fstabRecLine u1, fstabRecLine u2] none none none
          = .ok (none, none, some u1)) ∧
    (∀ (env : Env) (u2 : Line), (∀ c ∈ u2, isWS c = false) →
        fstabLoop env [labelHomeLine, fstabHomeLine u2] none none none
          = .ok (some u2, none, none)) := by
  refine ⟨fun env lines => fstabLoop_keeps env lines, ?_, ?_⟩
  · intro env u1 u2 h1 h2
    refine ⟨?_, ?_, ?_⟩
    · simp [fstabLoop, trim_fstabHomeLine, splitWhitespace_fstabHomeLine u1 h1,
        splitWhitespace_fstabHomeLine u2 h2, parse_fstab_uuid,
        show (fstabHomeLine u1).head? = some 'U' from rfl,
        show (fstabHomeLine u2).head? = some 'U' from rfl,
        show homeTarget ≠ efiTarget from by decide,
        show homeTarget ≠ recoveryTarget from by decide,
        show ('U' : Char) ≠ '#' from by decide]
    · simp [fstabLoop, trim_fstabEfiLine, splitWhitespace_fstabEfiLine u1 h1,
        splitWhitespace_fstabEfiLine u2 h2, parse_fstab_uuid,
        show (fstabEfiLine u1).head? = some 'U' from rfl,
        show (fstabEfiLine u2).head? = some 'U' from rfl,
        show efiTarget ≠ homeTarget from by decide,
        show efiTarget ≠ recoveryTarget from by decide,
        show ('U' : Char) ≠ '#' from by decide]
    · simp [fstabLoop, trim_fstabRecLine, splitWhitespace_fstabRecLine u1 h1,
        splitWhitespace_fstabRecLine u2 h2, parse_fstab_uuid,
        show (fstabRecLine u1).head? = some 'U' from rfl,
        show (fstabRecLine u2).head? = some 'U' from rfl,
        show recoveryTarget ≠ homeTarget from by decide,
        show recoveryTarget ≠ efiTarget from by decide,
        show ('U' : Char) ≠ '#' from by decide]
  · intro env u2 h2
    have htr : trim labelHomeLine = labelHomeLine := by decide
    have hsp : splitWhitespace labelHomeLine
        = [labelSrc, homeTarget, "ext4".toList, "defaults".toList,
            "0".toList, "2".toList] := by decide
    simp [fstabLoop, htr, hsp, trim_fstabHomeLine,
      splitWhitespace_fstabHomeLine u2 h2, parse_fstab_uuid, parse_fstab_label,
      show labelHomeLine.head? = some 'L' from rfl,
      show (fstabHomeLine u2).head? = some 'U' from rfl,
      show homeTarget ≠ efiTarget from by decide,
      show homeTarget ≠ recoveryTarget from by decide,
      show ('L' : Char) ≠ '#' from by decide,
      show ('U' : Char) ≠ '#' from by decide]

/-- Witness for C7 (amended): two concrete resolvable `UUID=` home lines —
the first wins. -/
theorem c7_witness :
    (∀ c ∈ ("aaaa-1111".toList : Line), isWS c = false) ∧
    (∀ c ∈ ("bbbb-2222".toList : Line), isWS c = false) ∧
    fstabLoop envNull
        [fstabHomeLine "aaaa-1111".toList, fstabHomeLine "bbbb-2222".toList]
        none none none
      = .ok (some "aaaa-1111".toList, none, none) :=
  ⟨by decide, by decide,
    (c7_amended_first_resolved_wins.2.1 envNull "aaaa-1111".toList
      "bbbb-2222".toList (by decide) (by decide)).1⟩

/-- C8 (counterexample): an fstab whose `/home` line has source field exactly
`UUID` makes `find_linux_parts` panic inside `split_at(5)`, and that panic
propagates out of `detect_linux` — a fstab-parsing failure that does fail
Linux detection. -/
theorem c8_cex_uuid_panic :
    detect_linux envC8 baseW = .panicked ∧
    envC8.openLines (pathJoin baseW etcFstab) ≠ none :=
  ⟨by decide, by decide⟩

/-- C8 (amended): with a readable, parseable `etc/os-release` and no
`etc/fstab`, `detect_linux` returns a Linux variant with all three optional
identifiers empty; and whenever the Fstab Table Parser completes without
panicking, Linux detection succeeds with whatever triple it produced (its
internal failures only leave fields empty). A panic inside the fstab source
handling (source exactly `UUID`) is the one fstab failure that escapes. -/
theorem c8_amended_fstab_failures :
    ∀ (env : Env) (base : Line) (info : OsRelease),
      env.pathExists (pathJoin base etcOsRelease) = true →
      env.osReleaseNew (pathJoin base etcOsRelease) = some info →
      (env.openLines (pathJoin base etcFstab) = none →
        detect_linux env base = .ok (some (OS.Linux info none none none))) ∧
      (∀ parts, find_linux_parts env base = .ok parts →
        detect_linux env base
          = .ok (some (OS.Linux info parts.2.1 parts.1 parts.2.2))) := by
  intro env base info hp ho
  constructor
  · intro hf
    simp [detect_linux, hp, ho, find_linux_parts, hf]
  · intro parts hparts
    obtain ⟨ph, pe, pr⟩ := parts
    simp [detect_linux, hp, ho, hparts]

/-- Witness for C8 (amended) at a concrete Linux root without fstab. -/
theorem c8_witness :
    envLinuxNoFstab.pathExists (pathJoin baseW etcOsRelease) = true ∧
    envLinuxNoFstab.osReleaseNew (pathJoin baseW etcOsRelease)
      = some ⟨"NAME=Pop!_OS".toList⟩ ∧
    envLinuxNoFstab.openLines (pathJoin baseW etcFstab) = none ∧
    detect_linux envLinuxNoFstab baseW
      = .ok (some (OS.Linux ⟨"NAME=Pop!_OS".toList⟩ none none none)) :=
  ⟨by decide, by decide, by decide,
    (c8_amended_fstab_failures envLinuxNoFstab baseW ⟨"NAME=Pop!_OS".toList⟩
      (by decide) (by decide)).1 (by decide)⟩

/-- Witness for C10: the `ProductName` key-marker line itself, arriving in
awaiting-name state, is sliced as a value. -/
theorem c10_witness :
    17 ≤ (trim keyNameMarker).length ∧
    plistLoop [keyNameMarker] 2 none (some ['x']) =
      .ok (some (sliceVal (trim keyNameMarker) ++ " (".toList ++ ['x'] ++ ")".toList)) :=
  ⟨by decide, c10_amended_slice_regardless.2.1 keyNameMarker [] ['x'] (by decide)⟩

/-- C1: `detect_os_from_path` is exactly the probe chain of the spec (Linux,
then Windows, then macOS, first non-empty result), and for a root where the
Windows kernel marker exists and `etc/os-release` does not, it returns the
Windows variant for every behaviour of the remaining environment — so the
macOS detector cannot influence the outcome. -/
theorem c1_probe_order :
    ∀ (env : Env) (base : Line),
      env.pathExists (pathJoin base winMarker) = true →
      env.pathExists (pathJoin base etcOsRelease) = false →
      detect_os_from_path env base = .ok (some (OS.Windows "Windows".toList)) ∧
      (∀ (env2 : Env) (base2 : Line),
        detect_os_from_path env2 base2 = probeChainSpec env2 base2) := by
  intro env base hw hl
  constructor
  · simp [detect_os_from_path, detect_linux, detect_windows, hw, hl]
  · intro env2 base2
    rfl

/-- Witness for C1 at a concrete Windows-only root. -/
theorem c1_witness :
    envWin.pathExists (pathJoin baseW winMarker) = true ∧
    envWin.pathExists (pathJoin baseW etcOsRelease) = false ∧
    detect_os_from_path envWin baseW = .ok (some (OS.Windows "Windows".toList)) :=
  ⟨by decide, by decide, (c1_probe_order envWin baseW (by decide) (by decide)).1⟩

/-- C9 (counterexample): a root whose `etc/os-release` opens onto a key
marker followed by a 10-character line — the file opens and the scanner
cannot extract both fields, yet `detect_macos` panics instead of returning
the fixed fallback label. -/
theorem c9_cex_short_value_panics :
    envMacPanic.openLines (pathJoin baseW etcOsRelease)
      = some [keyNameMarker, "0123456789".toList] ∧
    detect_macos envMacPanic baseW = .panicked ∧
    detect_macos envMacPanic baseW ≠ .ok (some (OS.MacOs macFallback)) :=
  ⟨by decide, by decide, by decide⟩

/-- C9 (amended): if `etc/os-release` opens and the plist scanner returns
without a result (no panic), `detect_macos` still succeeds with the fixed
fallback label; it returns `none` exactly when the file cannot be opened;
but when the scanner panics (a value line of trimmed length 10–16 after a
key marker), `detect_macos` panics instead of falling back. -/
theorem c9_amended_macos_fallback :
    ∀ (env : Env) (base : Line),
      (∀ ls, env.openLines (pathJoin base etcOsRelease) = some ls →
        parse_plist ls = .ok none →
        detect_macos env base = .ok (some (OS.MacOs macFallback))) ∧
      (env.openLines (pathJoin base etcOsRelease) = none →
        detect_macos env base = .ok none) ∧
      (detect_macos env base = .ok none →
        env.openLines (pathJoin base etcOsRelease) = none) ∧
      (∀ ls, env.openLines (pathJoin base etcOsRelease) = some ls →
        parse_plist ls = .panicked →
        detect_macos env base = .panicked) := by
  intro env base
  refine ⟨fun ls hop hp => ?_, fun hop => ?_, fun hnone => ?_, fun ls hop hp => ?_⟩
  · simp [detect_macos, hop, hp]
  · simp [detect_macos, hop]
  · cases hop : env.openLines (pathJoin base etcOsRelease) with
    | none => rfl
    | some ls =>
      exfalso
      rw [detect_macos, hop] at hnone
      cases hpp : parse_plist ls <;> simp [hpp] at hnone
  · simp [detect_macos, hop, hp]

/-- Witness for C9 (amended) at a concrete root whose `etc/os-release` is
empty. -/
theorem c9_witness :
    envMac.openLines (pathJoin baseW etcOsRelease) = some [] ∧
    parse_plist [] = .ok none ∧
    detect_macos envMac baseW = .ok (some (OS.MacOs macFallback)) :=
  ⟨by decide, by decide,
    (c9_amended_macos_fallback envMac baseW).1 [] (by decide) (by decide)⟩

/-- C2: on every exit path of `detect_os_from_device` — OS found, nothing
found, or internal panic — a successful mount is followed in-trace by the
detached unmount and then the removal of the temporary directory, and a
created temporary directory is always removed. -/
theorem c2_cleanup_all_paths :
    ∀ d : DevEnv,
      (MEv.mountCreated ∈ (detect_os_from_device d).2 →
        List.Sublist [MEv.mountCreated, MEv.unmountDetach, MEv.tempdirRemoved]
          (detect_os_from_device d).2) ∧
      (MEv.tempdirCreated ∈ (detect_os_from_device d).2 →
        MEv.tempdirRemoved ∈ (detect_os_from_device d).2) := by
  intro d
  obtain ⟨td, tp, mk, fs⟩ := d
  cases td <;> cases mk <;>
    cases hp : detect_os_from_path fs tp <;>
      simp [detect_os_from_device, hp]

/-- Witness for C2: a device whose mount succeeds over an empty filesystem. -/
theorem c2_witness :
    MEv.mountCreated ∈ (detect_os_from_device devW).2 ∧
    List.Sublist [MEv.mountCreated, MEv.unmountDetach, MEv.tempdirRemoved]
      (detect_os_from_device devW).2 ∧
    MEv.tempdirRemoved ∈ (detect_os_from_device devW).2 :=
  ⟨by decide, (c2_cleanup_all_paths devW).1 (by decide),
    (c2_cleanup_all_paths devW).2 (by decide)⟩

/-- C3: `detect_os_from_device` answers `none` when the temporary directory
cannot be created, when the mount fails, and when the probe chain finds
nothing — the same `none` in all three cases, carrying no distinction. -/
theorem c3_none_collapses_causes :
    ∀ d : DevEnv,
      (d.tempdirOk = false → (detect_os_from_device d).1 = .ok none) ∧
      (d.mountOk = false → (detect_os_from_device d).1 = .ok none) ∧
      (detect_os_from_path d.fsEnv d.tempdirPath = .ok none →
        (detect_os_from_device d).1 = .ok none) := by
  intro d
  obtain ⟨td, tp, mk, fs⟩ := d
  cases td <;> cases mk <;>
    cases hp : detect_os_from_path fs tp <;>
      simp [detect_os_from_device, hp]

/-- Witness for C3: a device whose mount fails. -/
theorem c3_witness :
    devNoMount.mountOk = false ∧
    (detect_os_from_device devNoMount).1 = .ok none :=
  ⟨by decide, (c3_none_collapses_causes devNoMount).2.1 (by decide)⟩

end OsDetect
